import Mathlib

/-!
Verification of the Dockerfile generator in generate/generator/generate.go.

The Go program is shallowly embedded: Go strings become Lean strings
(manipulated through their character lists), Go int64 arithmetic becomes
Int with explicit clamping where strconv.ParseInt can overflow, code that
panics or calls log.Fatalf returns Option (none models the aborted run),
and the HTTP fetch performed by getSHA256 is a parameter: an oracle from
URLs to responses.
-/

namespace DockerGen

/-- Go strings.Split(s, sep) for a one-character separator, on char lists. -/
def splitOnChar (sep : Char) : List Char → List (List Char)
  | [] => [[]]
  | c :: cs =>
    if c = sep then
      [] :: splitOnChar sep cs
    else
      match splitOnChar sep cs with
      | [] => [[c]]
      | l :: ls => (c :: l) :: ls

/-- fmt.Sprintf("%02s", s): right-justified, zero-padded to width two. -/
def pad2 (s : List Char) : List Char :=
  if s.length < 2 then List.replicate (2 - s.length) '0' ++ s else s

/-- Decimal value of a digit list (most significant digit first). -/
def parseDigits (l : List Char) : Nat :=
  l.foldl (fun a c => a * 10 + (c.toNat - 48)) 0

/-- strconv.ParseInt(s, 10, 64) as the Go callers observe it: the returned
int64 value together with an ok flag (false when err is non-nil). A syntax
error yields (0, false); a syntactically valid number outside the int64
range yields the clamped bound together with false. -/
def goParseInt64 (l : List Char) : Int × Bool :=
  let signDigits : Int × List Char :=
    match l with
    | '+' :: rest => (1, rest)
    | '-' :: rest => (-1, rest)
    | _ => (1, l)
  let sign := signDigits.1
  let digits := signDigits.2
  if digits.isEmpty || !(digits.all Char.isDigit) then (0, false)
  else
    let n := parseDigits digits
    if sign = 1 then
      if n ≤ 2 ^ 63 - 1 then ((n : Int), true) else ((2 : Int) ^ 63 - 1, false)
    else
      if n ≤ 2 ^ 63 then (-(n : Int), true) else (-((2 : Int) ^ 63), false)

/-- Editions are Go string values. -/
abbrev Edition := String

def EditionEnterprise : Edition := "enterprise"

def EditionCommunity : Edition := "community"

/-- Products are Go string values. -/
abbrev Product := String

def ProductServer : Product := "couchbase-server"

def ProductSyncGw : Product := "sync-gateway"

def ProductSandbox : Product := "server-sandbox"

def ProductColumnar : Product := "couchbase-columnar"

def ProductEdgeServer : Product := "couchbase-edge-server"

def ProductEnterpriseAnalytics : Product := "enterprise-analytics"

/-- Architectures are Go string values. -/
abbrev Arch := String

def Archamd64 : Arch := "amd64"

def Archarm64 : Arch := "arm64"

def Archgeneric : Arch := "@@ARCH@@"

/-- Package url and filename overrides for special versions. -/
structure VersionCustomization where
  PackageUrl : String
  PackageFilename : String
deriving DecidableEq

/-- The customization table built in init(): only the two legacy
sync-gateway devbuild entries. -/
def versionCustomizations : List (String × VersionCustomization) :=
  [("sync-gateway_community_2.0.0-devbuild",
    { PackageUrl := "http://cbmobile-packages.s3.amazonaws.com/couchbase-sync-gateway-community_2.0.0-827_x86_64.rpm"
      PackageFilename := "couchbase-sync-gateway-community_2.0.0-827_x86_64.rpm" }),
   ("sync-gateway_enterprise_2.0.0-devbuild",
    { PackageUrl := "http://cbmobile-packages.s3.amazonaws.com/couchbase-sync-gateway-enterprise_2.0.0-827_x86_64.rpm"
      PackageFilename := "couchbase-sync-gateway-enterprise_2.0.0-827_x86_64.rpm" })]

/-- intVer from generate.go: take the part of the version before the first
dash, split it on dots, zero-pad the first three sections to width two,
concatenate, and run strconv.ParseInt. none models the run-aborting
index-out-of-range panic when there are fewer than three sections;
otherwise the (value, ok) pair the callers observe is returned. -/
def intVer (v : String) : Option (Int × Bool) :=
  let baseVer := v.data.takeWhile (fun c => !(c == '-'))
  let sections := splitOnChar '.' baseVer
  match sections.get? 0, sections.get? 1, sections.get? 2 with
  | some s0, some s1, some s2 => some (goParseInt64 (pad2 s0 ++ pad2 s1 ++ pad2 s2))
  | _, _, _ => none

/-- strings.TrimSuffix. -/
def trimSuffixStr (v suf : String) : String :=
  if suf.data.isSuffixOf v.data then ⟨v.data.take (v.data.length - suf.data.length)⟩ else v

/-- strings.HasSuffix. -/
def hasSuffixStr (v suf : String) : Bool := suf.data.isSuffixOf v.data

/-- strings.ToLower (ASCII is all that ever reaches it here). -/
def strToLower (s : String) : String := ⟨s.data.map Char.toLower⟩

/-- The DockerfileVariant record from generate.go. -/
structure DockerfileVariant where
  Edition : Edition
  Product : Product
  Version : String
  TargetVersion : String
  TemplateFilename : String
  Arches : List Arch
  IsStaging : Bool
  OutputDir : String
  TemplateOverrides : List (String × String)
deriving DecidableEq

/-- The variant constructed at the top of generateOneDockerfile, including
the product- and version-specific adjustments. none models the
run-aborting index panic inside intVer for versions whose numeric part
has fewer than three dot-separated sections. -/
def generateOneDockerfileVariant (edition : Edition) (product : Product)
    (ver : String) (outputDir : String) (overrides : List (String × String)) :
    Option DockerfileVariant :=
  let base : DockerfileVariant := {
    Edition := edition
    Product := product
    Version := trimSuffixStr ver "-staging"
    TargetVersion := trimSuffixStr ver "-staging"
    Arches := [Archamd64]
    IsStaging := hasSuffixStr ver "-staging"
    TemplateFilename := "Dockerfile.template"
    OutputDir := outputDir
    TemplateOverrides := overrides }
  match intVer base.Version with
  | none => none
  | some pv =>
    let productVer := pv.1
    some (
      if product = ProductServer then
        let v1 := if productVer = 70003 then { base with Version := "7.0.3-MP1" } else base
        if productVer ≥ 70100 then { v1 with Arches := v1.Arches ++ [Archarm64] } else v1
      else if product = ProductSyncGw then
        if productVer ≤ 30003 then
          { base with TemplateFilename := "Dockerfile.centos.template" }
        else
          { base with TemplateFilename := "Dockerfile.ubuntu.template",
                      Arches := base.Arches ++ [Archarm64] }
      else if product = ProductSandbox then
        if productVer ≥ 71000 then { base with Arches := base.Arches ++ [Archarm64] } else base
      else if product = ProductColumnar ∨ product = ProductEnterpriseAnalytics then
        { base with Arches := base.Arches ++ [Archarm64] }
      else base)

/-- go-version strict order on numeric MAJOR.MINOR.PATCH triples
(shorter constraint versions such as 4.0 are zero-padded, as go-version
does when comparing). -/
abbrev verLT (a b c x y z : Nat) : Prop :=
  a < x ∨ (a = x ∧ (b < y ∨ (b = y ∧ c < z)))

/-- go-version non-strict order on numeric MAJOR.MINOR.PATCH triples. -/
abbrev verLE (a b c x y z : Nat) : Prop :=
  a < x ∨ (a = x ∧ (b < y ∨ (b = y ∧ c ≤ z)))

/-- go-version constraint "candidate >= x.y.z". -/
abbrev verGE (a b c x y z : Nat) : Prop := verLE x y z a b c

/-- The ProductServer arm of ubuntuVersion: the ordered chain of go-version
range constraints from generate.go, on the numeric MAJOR.MINOR.PATCH
triple of the version (repository versions have exactly three numeric
segments; prerelease suffixes, which go-version only orders differently
when the numeric cores tie, are not modelled). -/
def serverUbuntuTag (a b c : Nat) : String :=
  if verGE a b c 4 0 0 ∧ verLT a b c 5 0 0 then "14.04"
  else if verGE a b c 5 0 0 ∧ verLE a b c 6 0 0 then "16.04"
  else if verGE a b c 6 0 1 ∧ verLE a b c 6 6 1 then "18.04"
  else if verGE a b c 6 6 2 ∧ verLE a b c 7 1 6 then "20.04"
  else if verGE a b c 7 2 0 ∧ verLE a b c 7 2 5 then "22.04"
  else if verGE a b c 7 6 0 ∧ verLE a b c 7 6 1 then "22.04"
  else "24.04"

/-- hashicorp/go-version NewVersion, restricted to the shapes that occur
here: a dot-separated all-digit numeric core, optionally followed by a
dash-prefixed prerelease or plus-prefixed metadata suffix. Returns the
numeric segments; none models the log.Fatalf in ubuntuVersion when
parsing fails. -/
def goVerParse (v : String) : Option (List Nat) :=
  let core := v.data.takeWhile (fun c => !(c == '-' || c == '+'))
  let segs := splitOnChar '.' core
  if segs.all (fun s => !s.isEmpty && s.all Char.isDigit) then
    some (segs.map parseDigits)
  else none

/-- ubuntuVersion from generate.go. none models the log.Fatalf on a
version go-version cannot parse. -/
def ubuntuVersion (t : DockerfileVariant) : Option String :=
  match goVerParse t.Version with
  | none => none
  | some segs =>
    some (
      if t.Product = ProductSyncGw then "22.04"
      else if t.Product = ProductEdgeServer then "22.04"
      else if t.Product = ProductColumnar then "22.04"
      else if t.Product = ProductEnterpriseAnalytics then "24.04"
      else if t.Product = ProductServer then
        serverUbuntuTag (segs.getD 0 0) (segs.getD 1 0) (segs.getD 2 0)
      else "")

/-- strings.Contains(s, sub): some tail of s starts with sub. -/
def listContains (l sub : List Char) : Bool :=
  match l with
  | [] => sub.isEmpty
  | _ :: tail => sub.isPrefixOf l || listContains tail sub

/-- dockerBaseImage from generate.go. none models the intVer panic, the
ubuntuVersion log.Fatalf, and the final panic on an unexpected product. -/
def dockerBaseImage (t : DockerfileVariant) : Option String :=
  if t.Product = ProductSyncGw then
    match intVer t.Version with
    | none => none
    | some pv =>
      if listContains t.Version.data "forestdb".data then some "tleyden5iwx/forestdb"
      else if pv.1 ≤ 30003 then some "centos:centos7"
      else (ubuntuVersion t).map (fun u => "ubuntu:" ++ u)
  else if t.Product = ProductEdgeServer then (ubuntuVersion t).map (fun u => "ubuntu:" ++ u)
  else if t.Product = ProductServer then (ubuntuVersion t).map (fun u => "ubuntu:" ++ u)
  else if t.Product = ProductSandbox then some ("couchbase/server:" ++ t.Version)
  else if t.Product = ProductColumnar then (ubuntuVersion t).map (fun u => "ubuntu:" ++ u)
  else if t.Product = ProductEnterpriseAnalytics then (ubuntuVersion t).map (fun u => "ubuntu:" ++ u)
  else none

/-- releaseURL from generate.go. -/
def releaseURL (t : DockerfileVariant) : String :=
  if t.Product = ProductServer then
    if t.IsStaging then "http://packages-staging.couchbase.com/releases/" ++ t.Version
    else "https://packages.couchbase.com/releases/" ++ t.Version
  else
    if t.IsStaging then
      "http://packages-staging.couchbase.com/releases/" ++ (t.Product ++ ("/" ++ t.Version))
    else
      "https://packages.couchbase.com/releases/" ++ (t.Product ++ ("/" ++ t.Version))

/-- serverPackageFile from generate.go. none models the intVer panic and
the ubuntuVersion log.Fatalf. -/
def serverPackageFile (t : DockerfileVariant) (arch : Arch) : Option String :=
  match intVer t.Version with
  | none => none
  | some sv =>
    if sv.1 ≥ 70100 then
      some (t.Product ++ "-" ++ t.Edition ++ "_" ++ t.Version ++ "-linux_" ++ arch ++ ".deb")
    else
      (ubuntuVersion t).map (fun u =>
        t.Product ++ "-" ++ t.Edition ++ "_" ++ t.Version ++ "-ubuntu" ++ u ++ "_amd64.deb")

/-- versionCustomizationKey from generate.go. -/
def versionCustomizationKey (t : DockerfileVariant) : String :=
  t.Product ++ "_" ++ t.Edition ++ "_" ++ t.Version

/-- versionCustomization from generate.go: look the key up in the table. -/
def versionCustomization (t : DockerfileVariant) : Option VersionCustomization :=
  versionCustomizations.lookup (versionCustomizationKey t)

/-- sgPackageFilename from generate.go. none models the intVer panic
that a version with fewer than three sections triggers on the
uncustomized path. -/
def sgPackageFilename (t : DockerfileVariant) : Option String :=
  match versionCustomization t with
  | some c => some c.PackageFilename
  | none =>
    match intVer t.Version with
    | none => none
    | some pv =>
      if pv.1 ≤ 30003 then
        some (("couchbase-sync-gateway-" ++ strToLower t.Edition ++ "_" ++ t.Version ++ "_@@ARCH@@") ++ ".rpm")
      else
        some (("couchbase-sync-gateway-" ++ strToLower t.Edition ++ "_" ++ t.Version ++ "_@@ARCH@@") ++ ".deb")

/-- sgPackageUrl from generate.go. -/
def sgPackageUrl (t : DockerfileVariant) : Option String :=
  let packagesBaseUrl :=
    if t.IsStaging then "http://packages-staging.couchbase.com/releases/couchbase-sync-gateway"
    else "http://packages.couchbase.com/releases/couchbase-sync-gateway"
  match versionCustomization t with
  | some c => some c.PackageUrl
  | none =>
    (sgPackageFilename t).map (fun fn =>
      packagesBaseUrl ++ ("/" ++ (t.Version ++ ("/" ++ fn))))

/-- targetDir from generate.go, with the global baseDir passed explicitly.
path.Join on nonempty, already-clean components is rendered as
slash-separated concatenation. -/
def targetDir (baseDirp : String) (t : DockerfileVariant) : String :=
  if t.OutputDir ≠ "" then t.OutputDir
  else
    let version := if t.IsStaging then t.TargetVersion ++ "-staging" else t.TargetVersion
    baseDirp ++ ("/" ++ (t.Edition ++ ("/" ++ (t.Product ++ ("/" ++ version)))))

/-- The outcome of http.Get plus the body read, as getSHA256 observes it:
netError is a non-nil error from http.Get; response carries the status
code and the body, with none for a body whose read fails. -/
inductive HttpResult where
  | netError : HttpResult
  | response (status : Nat) (body : Option String) : HttpResult

/-- strings.Fields: split around runs of whitespace, dropping empties. -/
def fieldsAux : List Char → List Char → List (List Char)
  | [], acc => if acc.isEmpty then [] else [acc.reverse]
  | c :: cs, acc =>
    if c.isWhitespace then
      if acc.isEmpty then fieldsAux cs [] else acc.reverse :: fieldsAux cs []
    else fieldsAux cs (c :: acc)

/-- strings.Fields on a string. -/
def goFields (s : String) : List String := (fieldsAux s.data []).map (fun l => ⟨l⟩)

/-- The sha256url getSHA256 builds: only ProductServer assigns it; for any
other product the variable keeps its zero value "". none models an abort
while computing the server package filename. -/
def sha256Url (t : DockerfileVariant) (arch : Arch) : Option String :=
  if t.Product = ProductServer then
    (serverPackageFile t arch).map (fun f => releaseURL t ++ ("/" ++ (f ++ ".sha256")))
  else some ""

/-- getSHA256 from generate.go, with the HTTP fetch as an oracle. none
models an abort: either a fatal error while building the url, or the
index panic of strings.Fields(body)[0] on a tokenless 200 body. -/
def getSHA256 (fetch : String → HttpResult) (t : DockerfileVariant) (arch : Arch) :
    Option String :=
  match sha256Url t arch with
  | none => none
  | some url =>
    match fetch url with
    | HttpResult.netError => some "MISSING_SHA256_ERROR"
    | HttpResult.response status body =>
      if status ≠ 200 then some "MISSING_SHA256_ERROR"
      else
        match body with
        | none => some "HTTP_ERROR"
        | some b =>
          match goFields b with
          | [] => none
          | f :: _ => some f

/-- The condition under which `.+` accepts the remainder of the subject in
the skip regexp: nonempty, and `.` does not cross a newline. -/
def regexRestOk (rest : List Char) : Bool :=
  !rest.isEmpty && rest.all (fun c => !(c == '\n'))

/-- The regexp `^(1\.|2\.0\.).+$` from init() (the sync-gateway entry of
skipGeneration), embedded as the language it accepts: strings starting
with 1. or 2.0. followed by at least one more non-newline character. -/
def sgSkipRegexMatch (l : List Char) : Bool :=
  match l with
  | c1 :: c2 :: rest =>
    if c1 == '1' && c2 == '.' then regexRestOk rest
    else
      match rest with
      | c3 :: c4 :: rest2 =>
        (c1 == '2' && c2 == '.' && c3 == '0' && c4 == '.') && regexRestOk rest2
      | _ => false
  | _ => false

/-- ProductVersionFilter.Matches applied to the skipGeneration table built
in init(), whose only entry is the sync-gateway regexp. -/
def skipGenerationMatches (product : Product) (version : String) : Bool :=
  if product = ProductSyncGw then sgSkipRegexMatch version.data else false

/-- A version string with the given three dot-separated components. -/
def verStr (s1 s2 s3 : List Char) : String := ⟨s1 ++ '.' :: (s2 ++ '.' :: s3)⟩

/-- An Option-valued computation did not abort and its result satisfies P. -/
def optionProp {α : Type} (o : Option α) (P : α → Prop) : Prop :=
  match o with
  | none => True
  | some a => P a

/-- The architecture-list invariant: amd64 first (the baseline the list
starts from, preserved because adjustments only append), hence present,
hence the list is nonempty. -/
def archInvariant (t : DockerfileVariant) : Prop :=
  t.Arches.head? = some Archamd64 ∧ Archamd64 ∈ t.Arches ∧ t.Arches ≠ []

/-- Version and TargetVersion agree. -/
def versionEqTarget (t : DockerfileVariant) : Prop := t.Version = t.TargetVersion

/-- An oracle for which every fetch fails at the transport level. -/
def constNetError : String → HttpResult := fun _ => HttpResult.netError

/-- Membership in one of the six server OS ranges of ubuntuVersion. -/
abbrev inSomeServerRange (a b c : Nat) : Prop :=
  (verGE a b c 4 0 0 ∧ verLT a b c 5 0 0) ∨
  (verGE a b c 5 0 0 ∧ verLE a b c 6 0 0) ∨
  (verGE a b c 6 0 1 ∧ verLE a b c 6 6 1) ∨
  (verGE a b c 6 6 2 ∧ verLE a b c 7 1 6) ∨
  (verGE a b c 7 2 0 ∧ verLE a b c 7 2 5) ∨
  (verGE a b c 7 6 0 ∧ verLE a b c 7 6 1)

/-- How many of the six server OS ranges contain the triple. -/
def serverRangeCount (a b c : Nat) : Nat :=
  (if verGE a b c 4 0 0 ∧ verLT a b c 5 0 0 then 1 else 0) +
  (if verGE a b c 5 0 0 ∧ verLE a b c 6 0 0 then 1 else 0) +
  (if verGE a b c 6 0 1 ∧ verLE a b c 6 6 1 then 1 else 0) +
  (if verGE a b c 6 6 2 ∧ verLE a b c 7 1 6 then 1 else 0) +
  (if verGE a b c 7 2 0 ∧ verLE a b c 7 2 5 then 1 else 0) +
  (if verGE a b c 7 6 0 ∧ verLE a b c 7 6 1 then 1 else 0)

/-- An Option String ends in the given suffix. -/
def endsIn (o : Option String) (suffix : String) : Prop :=
  ∃ p, o = some (p ++ suffix)

/-- No string ends both in ".rpm" and in ".deb". -/
theorem rpm_ne_deb (p q : String) : p ++ ".rpm" ≠ q ++ ".deb" := by
  intro h
  have h1 : (p ++ ".rpm").data.getLast? = (q ++ ".deb").data.getLast? := by rw [h]
  rw [String.data_append, String.data_append,
      List.getLast?_append_of_ne_nil _ (by decide),
      List.getLast?_append_of_ne_nil _ (by decide)] at h1
  exact absurd h1 (by decide)

/-- C1: the claim (and the comment in generateOneDockerfile) say the
server-sandbox gets arm64 from version 7.1.0 on, but the code compares
the intVer encoding against 71000, which is the encoding of 7.10.0, not of
7.1.0 (70100): at 7.1.0 the sandbox arch list stays [amd64], at 7.10.0 it
gains arm64, while the server product at the same 7.1.0 does gain arm64
through its correct threshold of 70100. -/
theorem C1_sandbox_arm64_threshold_eval :
    intVer "7.1.0" = some (70100, true) ∧
    (generateOneDockerfileVariant EditionCommunity ProductSandbox "7.1.0" "" []).map
      DockerfileVariant.Arches = some [Archamd64] ∧
    (generateOneDockerfileVariant EditionCommunity ProductSandbox "7.10.0" "" []).map
      DockerfileVariant.Arches = some [Archamd64, Archarm64] ∧
    (generateOneDockerfileVariant EditionCommunity ProductServer "7.1.0" "" []).map
      DockerfileVariant.Arches = some [Archamd64, Archarm64] := by
  decide

/-- Counterexample for C2: version 7.1.7 is a server version at or above
4.0 that lies in none of the six OS ranges and is not newer than all of
them (it is below 7.6.1), so the ordered range set has a gap; the lookup
answers the fallthrough tag 24.04 for it. -/
theorem C2_gap_counterexample :
    verGE 7 1 7 4 0 0 ∧ ¬ inSomeServerRange 7 1 7 ∧ verLE 7 1 7 7 6 1 ∧
    serverUbuntuTag 7 1 7 = "24.04" := by
  refine ⟨by decide, by decide, by decide, by rfl⟩

/-- Counterexample for C3: sync-gateway version 2.0.1 is not below 2.0.1,
yet the skip filter regexp matches it, so it is skipped in batch mode. -/
theorem C3_skip_2_0_1_counterexample :
    skipGenerationMatches ProductSyncGw "2.0.1" = true ∧
    intVer "2.0.1" = some (20001, true) := by
  decide

/-- Counterexample for C4: the version 7.x.0 fails numeric parsing
(intVer reports ok = false and value 0), yet the architecture list, the
template selection and the sync-gateway package-filename pattern all
proceed with the default value 0 instead of aborting. -/
theorem C4_parse_failure_proceeds_counterexample :
    intVer "7.x.0" = some (0, false) ∧
    (generateOneDockerfileVariant EditionCommunity ProductSyncGw "7.x.0" "" []).map
      (fun t => (t.Arches, t.TemplateFilename)) =
      some ([Archamd64], "Dockerfile.centos.template") ∧
    ((generateOneDockerfileVariant EditionCommunity ProductSyncGw "7.x.0" "" []).bind
      sgPackageFilename) = some "couchbase-sync-gateway-community_7.x.0_@@ARCH@@.rpm" := by
  decide

/-- Counterexample for C5: the server version 7.0.3-beta is a version
other than 7.0.3, yet its Version is rewritten to 7.0.3-MP1 (the rewrite
fires on the numeric encoding 70003, not on the exact string), so Version
and TargetVersion do not remain equal for it. -/
theorem C5_version_rewrite_counterexample :
    (generateOneDockerfileVariant EditionEnterprise ProductServer "7.0.3-beta" "" []).map
      (fun t => (t.Version, t.TargetVersion)) = some ("7.0.3-MP1", "7.0.3-beta") ∧
    ("7.0.3-beta" : String) ≠ "7.0.3" := by
  decide

/-- C7: whenever the customization table has an entry for the
product_edition_version key of the variant, sgPackageUrl and sgPackageFilename return the
stored override strings verbatim, bypassing the pattern-based path. -/
theorem C7_customization_verbatim (t : DockerfileVariant) (c : VersionCustomization)
    (h : versionCustomization t = some c) :
    sgPackageUrl t = some c.PackageUrl ∧ sgPackageFilename t = some c.PackageFilename := by
  constructor
  · simp only [sgPackageUrl, h]
  · simp only [sgPackageFilename, h]

/-- Witness for C7 at the community 2.0.0-devbuild table entry. -/
theorem C7_customization_verbatim_witness :
    sgPackageUrl
        ⟨"community", "sync-gateway", "2.0.0-devbuild", "2.0.0-devbuild",
          "Dockerfile.template", ["amd64"], false, "", []⟩ =
      some "http://cbmobile-packages.s3.amazonaws.com/couchbase-sync-gateway-community_2.0.0-827_x86_64.rpm" ∧
    sgPackageFilename
        ⟨"community", "sync-gateway", "2.0.0-devbuild", "2.0.0-devbuild",
          "Dockerfile.template", ["amd64"], false, "", []⟩ =
      some "couchbase-sync-gateway-community_2.0.0-827_x86_64.rpm" :=
  C7_customization_verbatim _
    { PackageUrl := "http://cbmobile-packages.s3.amazonaws.com/couchbase-sync-gateway-community_2.0.0-827_x86_64.rpm"
      PackageFilename := "couchbase-sync-gateway-community_2.0.0-827_x86_64.rpm" }
    (by decide)

/-- C10: for a variant whose product is not couchbase-server, the checksum
url stays the zero value "", so under the (stdlib) fact that fetching the
empty url fails, getSHA256 always answers the sentinel, whatever the
architecture and whatever the oracle does elsewhere. -/
theorem C10_non_server_sentinel (fetch : String → HttpResult) (t : DockerfileVariant)
    (arch : Arch) (hp : t.Product ≠ ProductServer)
    (hfetch : fetch "" = HttpResult.netError) :
    getSHA256 fetch t arch = some "MISSING_SHA256_ERROR" := by
  unfold getSHA256 sha256Url
  rw [if_neg hp]
  simp [hfetch]

/-- Witness for C10 at a columnar variant and the always-failing oracle. -/
theorem C10_non_server_sentinel_witness :
    getSHA256 constNetError
      ⟨"community", "couchbase-columnar", "1.1.0", "1.1.0",
        "Dockerfile.template", ["amd64"], false, "", []⟩ "amd64" =
      some "MISSING_SHA256_ERROR" :=
  C10_non_server_sentinel constNetError _ "amd64" (by decide) rfl

/-- C8: once the checksum url is built, a transport error or a non-200
status makes getSHA256 return the fixed sentinel MISSING_SHA256_ERROR
(never an abort), and a 200 response whose body reads successfully and
has at least one whitespace-delimited token yields the first token. -/
theorem C8_checksum_fetch (fetch : String → HttpResult) (t : DockerfileVariant)
    (arch : Arch) (u : String) (hu : sha256Url t arch = some u) :
    (fetch u = HttpResult.netError → getSHA256 fetch t arch = some "MISSING_SHA256_ERROR") ∧
    (∀ status body, fetch u = HttpResult.response status body → status ≠ 200 →
      getSHA256 fetch t arch = some "MISSING_SHA256_ERROR") ∧
    (∀ body f fs, fetch u = HttpResult.response 200 (some body) → goFields body = f :: fs →
      getSHA256 fetch t arch = some f) := by
  refine ⟨?_, ?_, ?_⟩
  · intro hf
    simp [getSHA256, hu, hf]
  · intro status body hf hs
    simp [getSHA256, hu, hf, hs]
  · intro body f fs hf hfields
    simp [getSHA256, hu, hf, hfields]

/-- Witness for C8 at a sandbox variant (empty checksum url) and the
always-failing oracle. -/
theorem C8_checksum_fetch_witness :
    sha256Url
        ⟨"community", "server-sandbox", "7.1.0", "7.1.0",
          "Dockerfile.template", ["amd64"], false, "", []⟩ "amd64" = some "" ∧
    getSHA256 constNetError
        ⟨"community", "server-sandbox", "7.1.0", "7.1.0",
          "Dockerfile.template", ["amd64"], false, "", []⟩ "amd64" =
      some "MISSING_SHA256_ERROR" :=
  ⟨by decide, (C8_checksum_fetch constNetError _ "amd64" "" (by decide)).1 rfl⟩

/-- C9: for every edition, product and version, the variant built by
generateOneDockerfile starts its architecture list at amd64 and the
product adjustments only append, so whenever a variant is constructed its
list has amd64 first, contains amd64, and is nonempty. -/
theorem C9_arch_baseline (edition : Edition) (product : Product) (ver outputDir : String)
    (overrides : List (String × String)) :
    optionProp (generateOneDockerfileVariant edition product ver outputDir overrides)
      archInvariant := by
  unfold generateOneDockerfileVariant
  rcases hiv : intVer (trimSuffixStr ver "-staging") with _ | pv
  · simp only [hiv, optionProp]
  · simp only [hiv, optionProp]
    split_ifs <;> simp [archInvariant, Archamd64, Archarm64]

/-- C2 (amended): the boundary versions land in their inclusive ranges
(7.1.6 in 6.6.2--7.1.6 giving 20.04, 7.2.0 in 7.2.0--7.2.5 giving 22.04)
and the six ordered ranges are pairwise non-overlapping, but the range set
has gaps (between 7.1.6 and 7.2.0 and between 7.2.5 and 7.6.0): every
version outside all six ranges -- in a gap, below 4.0, or newer than all
known ranges -- maps to the fallthrough tag 24.04. -/
theorem C2_ranges_amended :
    serverUbuntuTag 7 1 6 = "20.04" ∧ serverUbuntuTag 7 2 0 = "22.04" ∧
    (∀ a b c : Nat, serverRangeCount a b c ≤ 1) ∧
    (∀ a b c : Nat, ¬ inSomeServerRange a b c → serverUbuntuTag a b c = "24.04") := by
  refine ⟨by rfl, by rfl, ?_, ?_⟩
  · intro a b c
    unfold serverRangeCount verGE verLE verLT
    split_ifs <;> omega
  · intro a b c h
    unfold inSomeServerRange at h
    unfold serverUbuntuTag
    split_ifs <;> first | rfl | omega

/-- Witness for C2 (amended) at the gap version 7.1.7. -/
theorem C2_ranges_amended_witness : serverUbuntuTag 7 1 7 = "24.04" :=
  C2_ranges_amended.2.2.2 7 1 7 (by decide)

/-- C5 (amended): for (couchbase-server, enterprise, 7.0.3) the Version
field becomes 7.0.3-MP1 and feeds the release URL and the package
filename, while the target directory still uses 7.0.3; Version and
TargetVersion remain equal for every server version whose intVer encoding
differs from 70003 (but versions other than 7.0.3 that also encode to
70003, such as 7.0.3-beta, are rewritten too). -/
theorem C5_rewrite_amended :
    (generateOneDockerfileVariant EditionEnterprise ProductServer "7.0.3" "" []).map
      (fun t => (t.Version, t.TargetVersion)) = some ("7.0.3-MP1", "7.0.3") ∧
    (generateOneDockerfileVariant EditionEnterprise ProductServer "7.0.3" "" []).map
      releaseURL = some "https://packages.couchbase.com/releases/7.0.3-MP1" ∧
    ((generateOneDockerfileVariant EditionEnterprise ProductServer "7.0.3" "" []).bind
      (fun t => serverPackageFile t Archgeneric)) =
      some "couchbase-server-enterprise_7.0.3-MP1-ubuntu20.04_amd64.deb" ∧
    (∀ baseDirp : String,
      (generateOneDockerfileVariant EditionEnterprise ProductServer "7.0.3" "" []).map
        (targetDir baseDirp) = some (baseDirp ++ "/enterprise/couchbase-server/7.0.3")) ∧
    (∀ edition ver,
      (intVer (trimSuffixStr ver "-staging")).map Prod.fst ≠ some 70003 →
      optionProp (generateOneDockerfileVariant edition ProductServer ver "" [])
        versionEqTarget) := by
  refine ⟨by decide, by decide, by decide, fun baseDirp => rfl, ?_⟩
  intro edition ver h
  unfold generateOneDockerfileVariant
  rcases hiv : intVer (trimSuffixStr ver "-staging") with _ | pv
  · simp only [hiv, optionProp]
  · rw [hiv] at h
    have h70 : pv.1 ≠ 70003 := by simpa using h
    simp only [hiv, optionProp]
    split_ifs <;> simp_all [versionEqTarget]

/-- Witness for C5 (amended) at the server version 7.1.1. -/
theorem C5_rewrite_amended_witness :
    optionProp (generateOneDockerfileVariant EditionEnterprise ProductServer "7.1.1" "" [])
      versionEqTarget :=
  C5_rewrite_amended.2.2.2.2 EditionEnterprise "7.1.1" (by decide)

/-- C4 (amended): a version whose MAJOR.MINOR.PATCH prefix fails numeric
parsing does not abort the intVer-based computations: the intVer error is
discarded and the value 0 selects the low-version defaults (no arm64 for
the server, the centos template, the centos base image and the .rpm
package pattern for sync-gateway); only computations that re-parse the
version through go-version, such as the server base-image lookup, abort
the run. -/
theorem C4_parse_failure_amended (edition : Edition) (ver : String)
    (hv : intVer ver = some (0, false))
    (hns : trimSuffixStr ver "-staging" = ver)
    (hcust : versionCustomizations.lookup (ProductSyncGw ++ "_" ++ edition ++ "_" ++ ver) =
      none)
    (hfdb : listContains ver.data "forestdb".data = false) :
    (generateOneDockerfileVariant edition ProductSyncGw ver "" []).map
      (fun t => (t.Arches, t.TemplateFilename)) =
      some ([Archamd64], "Dockerfile.centos.template") ∧
    ((generateOneDockerfileVariant edition ProductSyncGw ver "" []).bind dockerBaseImage) =
      some "centos:centos7" ∧
    ((generateOneDockerfileVariant edition ProductSyncGw ver "" []).bind sgPackageFilename) =
      some (("couchbase-sync-gateway-" ++ strToLower edition ++ "_" ++ ver ++ "_@@ARCH@@") ++
        ".rpm") ∧
    (generateOneDockerfileVariant edition ProductServer ver "" []).map
      DockerfileVariant.Arches = some [Archamd64] := by
  have hgen : generateOneDockerfileVariant edition ProductSyncGw ver "" [] =
      some { Edition := edition, Product := ProductSyncGw, Version := ver,
             TargetVersion := ver, TemplateFilename := "Dockerfile.centos.template",
             Arches := [Archamd64], IsStaging := hasSuffixStr ver "-staging",
             OutputDir := "", TemplateOverrides := [] } := by
    simp [generateOneDockerfileVariant, hns, hv]
    all_goals decide
  refine ⟨?_, ?_, ?_, ?_⟩
  · rw [hgen]; rfl
  · rw [hgen]
    simp [dockerBaseImage, hv, hfdb]
  · rw [hgen]
    simp [sgPackageFilename, versionCustomization, versionCustomizationKey, hcust, hv]
  · simp [generateOneDockerfileVariant, hns, hv]

/-- Witness for C4 (amended) at the unparseable version 7.x.0. -/
theorem C4_parse_failure_amended_witness :
    ((generateOneDockerfileVariant EditionCommunity ProductSyncGw "7.x.0" "" []).bind
      dockerBaseImage) = some "centos:centos7" :=
  (C4_parse_failure_amended EditionCommunity "7.x.0" (by decide) (by decide) (by decide)
    (by decide)).2.1

/-- A digit character is not equal (as Bool) to any non-digit character. -/
theorem digit_beq_false {ch d : Char} (h : ch.isDigit = true) (hd : d.isDigit = false) :
    (ch == d) = false := by
  cases h0 : ch == d with
  | false => rfl
  | true =>
    have he : ch = d := beq_iff_eq.mp h0
    rw [he] at h
    rw [h] at hd
    exact hd

/-- All-digit lists contain no newline. -/
theorem all_digits_no_newline (s : List Char) (h : s.all Char.isDigit = true) :
    s.all (fun c => !(c == '\n')) = true := by
  rw [List.all_eq_true] at h ⊢
  intro x hx
  rw [digit_beq_false (h x hx) (by decide)]
  rfl

/-- A nonempty all-digit list satisfies the `.+$` condition. -/
theorem regexRestOk_of_digits (s : List Char) (hne : s ≠ [])
    (hd : s.all Char.isDigit = true) : regexRestOk s = true := by
  unfold regexRestOk
  rw [Bool.and_eq_true]
  constructor
  · simpa using hne
  · exact all_digits_no_newline s hd

/-- A digit component followed by a dot and a digit component satisfies
the `.+$` condition. -/
theorem regexRestOk_digits_dot_digits (s2 s3 : List Char)
    (hd2 : s2.all Char.isDigit = true) (hd3 : s3.all Char.isDigit = true) :
    regexRestOk (s2 ++ '.' :: s3) = true := by
  unfold regexRestOk
  rw [Bool.and_eq_true]
  constructor
  · simp
  · rw [List.all_append, Bool.and_eq_true]
    refine ⟨all_digits_no_newline s2 hd2, ?_⟩
    rw [List.all_cons, Bool.and_eq_true]
    exact ⟨by decide, all_digits_no_newline s3 hd3⟩

/-- The skip regexp rejects any subject whose second character is not a
dot. -/
theorem sgSkip_snd_not_dot (c d : Char) (rest : List Char) (hd : (d == '.') = false) :
    sgSkipRegexMatch (c :: d :: rest) = false := by
  cases rest with
  | nil => simp [sgSkipRegexMatch, hd]
  | cons e r2 =>
    cases r2 with
    | nil => simp [sgSkipRegexMatch, hd]
    | cons f r3 => simp [sgSkipRegexMatch, hd]

/-- C3 (amended): for a version directory made of three nonempty numeric
components, the batch-mode sync-gateway exclusion filter matches exactly
the 1.x.y and 2.0.z versions -- the major component is the single digit 1,
or the major is 2 and the minor the single digit 0 -- so 2.0.1 itself is
skipped, and the generated versions are those from 2.1.0 on (not those
from 2.0.1 on). -/
theorem C3_skip_filter_amended (s1 s2 s3 : List Char)
    (h1 : s1 ≠ []) (d1 : s1.all Char.isDigit = true)
    (h2 : s2 ≠ []) (d2 : s2.all Char.isDigit = true)
    (h3 : s3 ≠ []) (d3 : s3.all Char.isDigit = true) :
    skipGenerationMatches ProductSyncGw (verStr s1 s2 s3) = true ↔
      (s1 = ['1'] ∨ (s1 = ['2'] ∧ s2 = ['0'])) := by
  unfold skipGenerationMatches
  rw [if_pos rfl]
  show sgSkipRegexMatch (s1 ++ '.' :: (s2 ++ '.' :: s3)) = true ↔ _
  rcases s1 with _ | ⟨c, s1t⟩
  · exact absurd rfl h1
  rcases s1t with _ | ⟨d, s1tt⟩
  · rw [List.cons_append, List.nil_append]
    cases hc1 : c == '1' with
    | false =>
      have hcne : c ≠ '1' := by
        intro hh
        rw [hh] at hc1
        exact absurd hc1 (by decide)
      rcases s2 with _ | ⟨e, s2t⟩
      · exact absurd rfl h2
      rcases s2t with _ | ⟨f, s2tt⟩
      · rw [List.cons_append, List.nil_append]
        have hrest : regexRestOk s3 = true := regexRestOk_of_digits s3 h3 d3
        simp [sgSkipRegexMatch, hc1, hrest, beq_iff_eq, hcne]
      · rw [List.cons_append, List.cons_append]
        have hf : (f == '.') = false := by
          have hfd : f.isDigit = true := by
            simp only [List.all_cons, Bool.and_eq_true] at d2
            exact d2.2.1
          exact digit_beq_false hfd (by decide)
        simp [sgSkipRegexMatch, hc1, hf, hcne]
    | true =>
      have hc : c = '1' := beq_iff_eq.mp hc1
      have hrest : regexRestOk (s2 ++ '.' :: s3) = true :=
        regexRestOk_digits_dot_digits s2 s3 d2 d3
      simp [sgSkipRegexMatch, hc, hrest]
  · rw [List.cons_append, List.cons_append]
    have hd : (d == '.') = false := by
      have hdd : d.isDigit = true := by
        simp only [List.all_cons, Bool.and_eq_true] at d1
        exact d1.2.1
      exact digit_beq_false hdd (by decide)
    rw [sgSkip_snd_not_dot c d _ hd]
    simp

/-- Witness for C3 (amended) at version 2.0.1. -/
theorem C3_skip_filter_amended_witness :
    skipGenerationMatches ProductSyncGw (verStr ['2'] ['0'] ['1']) = true :=
  (C3_skip_filter_amended ['2'] ['0'] ['1'] (by decide) (by decide) (by decide) (by decide)
    (by decide) (by decide)).mpr (Or.inr ⟨rfl, rfl⟩)

/-- C6: for a sync-gateway variant with no customization entry whose
version has the intVer encoding of the numeric triple a.b.c (components
of at most two digits, the width the intVer encoding accommodates), the
package filename ends in .rpm exactly when a.b.c is at most 3.0.3, and
ends in .deb otherwise. -/
theorem C6_sg_package_extension (t : DockerfileVariant) (a b c : Nat)
    (hcust : versionCustomization t = none) (hb : b ≤ 99) (hc : c ≤ 99)
    (hv : intVer t.Version = some (((a * 10000 + b * 100 + c : Nat) : Int), true)) :
    (endsIn (sgPackageFilename t) ".rpm" ↔ verLE a b c 3 0 3) ∧
    (¬ verLE a b c 3 0 3 → endsIn (sgPackageFilename t) ".deb") := by
  have hiff : (((a * 10000 + b * 100 + c : Nat) : Int) ≤ 30003) ↔ verLE a b c 3 0 3 := by
    unfold verLE
    omega
  simp only [sgPackageFilename, hcust, hv]
  by_cases hlex : verLE a b c 3 0 3
  · rw [if_pos (hiff.mpr hlex)]
    exact ⟨⟨fun _ => hlex, fun _ => ⟨_, rfl⟩⟩, fun hn => absurd hlex hn⟩
  · rw [if_neg (fun hle => hlex (hiff.mp hle))]
    refine ⟨⟨?_, fun hl => absurd hl hlex⟩, fun _ => ⟨_, rfl⟩⟩
    rintro ⟨p, hp⟩
    exact absurd (Option.some.inj hp).symm (rpm_ne_deb p _)

/-- Witness for C6 at the boundary version 3.0.3. -/
theorem C6_sg_package_extension_witness :
    versionCustomization
        ⟨"community", "sync-gateway", "3.0.3", "3.0.3", "Dockerfile.template",
          ["amd64"], false, "", []⟩ = none ∧
    endsIn
      (sgPackageFilename
        ⟨"community", "sync-gateway", "3.0.3", "3.0.3", "Dockerfile.template",
          ["amd64"], false, "", []⟩) ".rpm" :=
  ⟨by decide,
    (C6_sg_package_extension _ 3 0 3 (by decide) (by decide) (by decide) (by decide)).1.mpr
      (by decide)⟩

end DockerGen
